import Mathlib

/-!
Verification development for the SudoDev issue-resolution agent.

The Python sources embedded here are `sudodev/core/agent.py` (the `Agent`
orchestrator) and `sudodev/core/feedback_loop.py` (the `FeedbackLoop`).
External collaborators (`sudodev/core/tools.py`, the sandbox container and
the LLM client) are not part of the analysed sources; they appear either as
abstract function parameters, or — where a claim needs their concrete
behaviour — as definitions modelled from the design document (marked
`Modelled from the spec:`).

Strings are modelled over `List Char`; Python's `re` patterns used by the
feedback loop (`(\w+Error): (.+)`, `AssertionError: (.+)`, `FAILED (.+)`,
`line (\d+)`) are embedded as executable leftmost-match scanners.  Python's
`\w` is modelled at ASCII granularity (letters, digits, underscore), which
covers every transcript the analyzer's rules are written for.
-/

namespace SudoDev

/-! ## String primitives (Python semantics) -/

/-- ASCII model of Python's `\w` character class: letters, digits, underscore. -/
def isWordChar (c : Char) : Bool :=
  c.isAlphanum || c == '_'

/-- Python `str.strip()` whitespace set: space, tab, newline, carriage return,
vertical tab, form feed. -/
def isPySpace (c : Char) : Bool :=
  c == ' ' || c == '\t' || c == '\n' || c == '\r' ||
  c == Char.ofNat 11 || c == Char.ofNat 12

/-- List-level prefix test (`l₁` begins `l₂`). -/
def isPrefixL : List Char → List Char → Bool
  | [], _ => true
  | _ :: _, [] => false
  | a :: as, b :: bs => a == b && isPrefixL as bs

/-- List-level suffix test (`l₁` ends `l₂`). -/
def isSuffixL (s l : List Char) : Bool :=
  isPrefixL s.reverse l.reverse

/-- Leftmost occurrence of the literal `needle`; Python's `needle in hay`. -/
def containsL (needle : List Char) : List Char → Bool
  | [] => isPrefixL needle []
  | c :: rest => isPrefixL needle (c :: rest) || containsL needle rest

/-- Python `needle in hay` on strings. -/
def strContains (hay needle : String) : Bool :=
  containsL needle.data hay.data

/-- Maximal run of `\w` characters at the head of the list. -/
def wordRun : List Char → List Char
  | [] => []
  | c :: cs => if isWordChar c then c :: wordRun cs else []

/-- The rest of the current line: characters up to (excluding) the next
newline — what a greedy `(.+)` group captures. -/
def lineRest : List Char → List Char
  | [] => []
  | c :: cs => if c == '\n' then [] else c :: lineRest cs

/-- Maximal run of decimal digits at the head of the list. -/
def digitRun : List Char → List Char
  | [] => []
  | c :: cs => if c.isDigit then c :: digitRun cs else []

/-- Decimal value of a digit run (Python `int(...)` on the `(\d+)` group). -/
def digitsToNat (ds : List Char) : Nat :=
  ds.foldl (fun n c => 10 * n + (c.toNat - 48)) 0

/-- Python `str.strip()`. -/
def pyStripL (cs : List Char) : List Char :=
  ((cs.dropWhile isPySpace).reverse.dropWhile isPySpace).reverse

/-- Python `str.strip()` on `String`. -/
def pyStrip (s : String) : String :=
  ⟨pyStripL s.data⟩

/-! ## Models of the `re.search` calls in `feedback_loop.py` -/

/-- Whether `re.search(r'(\w+Error): (.+)', _)` matches at this exact start
position: the maximal word run here ends in `Error` (with at least one
character before it), is followed by `": "`, and the rest of that line is
non-empty.  Returns the two captured groups. -/
def exceptionAt (cs : List Char) : Option (List Char × List Char) :=
  let run := wordRun cs
  if run.length < 6 then none
  else if !isSuffixL "Error".data run then none
  else
    match cs.drop run.length with
    | ':' :: ' ' :: tail =>
      let msg := lineRest tail
      if msg.isEmpty then none else some (run, msg)
    | _ => none

/-- `re.search(r'(\w+Error): (.+)', s)`: leftmost match, scanning start
positions left to right. -/
def searchExceptionL : List Char → Option (List Char × List Char)
  | [] => none
  | c :: rest =>
    match exceptionAt (c :: rest) with
    | some r => some r
    | none => searchExceptionL rest

/-- `re.search(lit ++ r'(.+)', s)` for a literal `lit`: leftmost occurrence of
`lit` that is followed by a non-empty rest-of-line; returns the group. -/
def searchLitLineL (lit : List Char) : List Char → Option (List Char)
  | [] => none
  | c :: rest =>
    if isPrefixL lit (c :: rest) then
      let msg := lineRest ((c :: rest).drop lit.length)
      if msg.isEmpty then searchLitLineL lit rest else some msg
    else searchLitLineL lit rest

/-- `re.search(r'line (\d+)', s)`: leftmost occurrence of `"line "` followed
by at least one digit; returns the numeric value of the digit group. -/
def searchLineNumL : List Char → Option Nat
  | [] => none
  | c :: rest =>
    if isPrefixL "line ".data (c :: rest) then
      let ds := digitRun ((c :: rest).drop 5)
      if ds.isEmpty then searchLineNumL rest else some (digitsToNat ds)
    else searchLineNumL rest

/-! ## `sudodev/core/feedback_loop.py` — the `FeedbackLoop` class -/

/-- One entry of `FeedbackLoop.attempts_history` (the dict appended by
`add_attempt`).  `timestamp` records `time.time()`, supplied here as an
explicit clock input since wall-clock reads are external. -/
structure AttemptRecord where
  attempt : Nat
  file_path : String
  code_applied : String
  error_output : String
  success : Bool
  timestamp : Nat
deriving DecidableEq

/-- The `FeedbackLoop` object state: the retry ceiling (`max_attempts`,
default 3) and the append-only `attempts_history` (most recent last). -/
structure FeedbackLoop where
  max_attempts : Nat
  attempts_history : List AttemptRecord
deriving DecidableEq

/-- `FeedbackLoop.__init__(max_attempts=3)`; callers pass the default 3
explicitly. -/
def FeedbackLoop.init (max_attempts : Nat) : FeedbackLoop :=
  { max_attempts := max_attempts, attempts_history := [] }

/-- `FeedbackLoop.add_attempt`: appends a record, truncating the applied code
to its first 500 characters (`code_applied[:500]`). -/
def FeedbackLoop.add_attempt (fl : FeedbackLoop) (attempt_num : Nat)
    (file_path code_applied error_output : String) (success : Bool)
    (now : Nat) : FeedbackLoop :=
  { fl with attempts_history := fl.attempts_history ++
      [{ attempt := attempt_num
         file_path := file_path
         code_applied := ⟨code_applied.data.take 500⟩
         error_output := error_output
         success := success
         timestamp := now }] }

/-- `FeedbackLoop.should_retry`: `current_attempt < self.max_attempts`. -/
def FeedbackLoop.should_retry (fl : FeedbackLoop) (current_attempt : Nat) : Bool :=
  current_attempt < fl.max_attempts

/-- The analysis dict built by `FeedbackLoop.analyze_errors`. -/
structure ErrorAnalysis where
  error_type : Option String
  error_message : Option String
  failed_line : Option Nat
  suggestions : List String
deriving DecidableEq

/-- The `error_patterns` loop of `analyze_errors`: the three rules
`(r'(\w+Error): (.+)', 'exception')`, `(r'AssertionError: (.+)', 'assertion')`,
`(r'FAILED (.+)', 'test_failure')` are tried in order and the first whose
pattern matches anywhere sets `(error_type, error_message)`. -/
def classifyError (error_output : String) : Option (String × String) :=
  match searchExceptionL error_output.data with
  | some (t, m) => some (⟨t⟩, ⟨m⟩)
  | none =>
    match searchLitLineL "AssertionError: ".data error_output.data with
    | some m => some ("AssertionError", ⟨m⟩)
    | none =>
      match searchLitLineL "FAILED ".data error_output.data with
      | some m => some ("TestFailure", ⟨m⟩)
      | none => none

/-- The analysis dict as it stands just before the `suggestions` step of
`analyze_errors`: pattern classification, then the independent
`re.search(r'line (\d+)', ...)` line-number probe. -/
def preAnalysis (error_output : String) : ErrorAnalysis :=
  let base : ErrorAnalysis :=
    match classifyError error_output with
    | some (t, m) =>
      { error_type := some t, error_message := some m
        failed_line := none, suggestions := [] }
    | none =>
      { error_type := none, error_message := none
        failed_line := none, suggestions := [] }
  match searchLineNumL error_output.data with
  | some n => { base with failed_line := some n }
  | none => base

/-- `error_output` of the most recent recorded attempt
(`self.attempts_history[-1].get('error_output', '')`). -/
def FeedbackLoop.lastErrorOutput (fl : FeedbackLoop) : String :=
  match fl.attempts_history.getLast? with
  | some r => r.error_output
  | none => ""

/-- The per-kind branch chain of `FeedbackLoop._generate_suggestions`.
Dead-end note kept from the source: the Django branch tests the error
message only when no known `error_type` matched first. -/
def kindSuggestions (analysis : ErrorAnalysis) : List String :=
  if analysis.error_type == some "NameError" then
    ["Check for undefined variables or missing imports"]
  else if analysis.error_type == some "AttributeError" then
    ["Verify object has the expected attributes/methods"]
  else if analysis.error_type == some "TypeError" then
    ["Check function arguments and type compatibility"]
  else if analysis.error_type == some "ImportError"
       || analysis.error_type == some "ModuleNotFoundError" then
    ["Verify import paths and module availability"]
  else if analysis.error_type == some "SyntaxError" then
    ["Review code syntax and indentation"]
  else if analysis.error_type == some "AssertionError" then
    ["The fix didn't achieve expected behavior - review logic"]
  else if strContains (analysis.error_message.getD "") "Django" then
    ["Ensure Django settings are properly configured"]
  else []

/-- The anti-repetition suggestion string appended by
`_generate_suggestions`. -/
def repeatSuggestion : String :=
  "CRITICAL: Same error repeating - try a different approach"

/-- `FeedbackLoop._generate_suggestions`: per-kind suggestions, then — only
when `len(self.attempts_history) > 1` — the repeat suggestion if the
analyzed `error_type` occurs as a substring of the most recent recorded
attempt's `error_output`.  (`_generate_suggestions` is only called when
`error_type` is set, so `getD ""` never fires on the repeat test.) -/
def FeedbackLoop.generate_suggestions (fl : FeedbackLoop)
    (analysis : ErrorAnalysis) : List String :=
  let suggestions := kindSuggestions analysis
  if 1 < fl.attempts_history.length then
    if strContains fl.lastErrorOutput (analysis.error_type.getD "") then
      suggestions ++ [repeatSuggestion]
    else suggestions
  else suggestions

/-- `FeedbackLoop.analyze_errors`: builds the analysis dict from the
transcript alone, then fills `suggestions` via `_generate_suggestions`
exactly when an `error_type` was recognized. -/
def FeedbackLoop.analyze_errors (fl : FeedbackLoop)
    (error_output : String) : ErrorAnalysis :=
  let a := preAnalysis error_output
  if a.error_type.isSome then
    { a with suggestions := fl.generate_suggestions a }
  else a

/-- The `analyze_errors` method as a state transformer: it reads `self` but
never assigns to it, so the state component is returned unchanged. -/
def FeedbackLoop.analyzeOp (fl : FeedbackLoop)
    (error_output : String) : FeedbackLoop × ErrorAnalysis :=
  (fl, fl.analyze_errors error_output)

/-! ## `sudodev/core/agent.py` — the `Agent` orchestrator

The Agent's collaborators (LLM client, sandbox, `tools.py` helpers) are
abstracted: each phase's interaction with them is summarised by the values
the Agent's own control flow inspects.  `Except Unit` models a Python call
that may raise. -/

/-- Outcomes of the calls made inside `Agent.run`'s `try` block: whether
`sandbox.start()` raises, and what each phase helper returns (or whether it
raises).  `run` itself only branches on these. -/
structure RunEnv where
  start : Except Unit Unit
  reproduce_bug : Except Unit Bool
  locate_files : Except Unit Bool
  generate_fix : Except Unit Bool
  verify_fix : Except Unit Bool

/-- The body of `Agent.run`'s `try` block: `sandbox.start()`, then the four
phases in order, each `False` short-circuiting to an overall `False`
return, any raise propagating out of the body. -/
def runBody (env : RunEnv) : Except Unit Bool :=
  match env.start with
  | .error e => .error e
  | .ok _ =>
    match env.reproduce_bug with
    | .error e => .error e
    | .ok false => .ok false
    | .ok true =>
      match env.locate_files with
      | .error e => .error e
      | .ok false => .ok false
      | .ok true =>
        match env.generate_fix with
        | .error e => .error e
        | .ok false => .ok false
        | .ok true => env.verify_fix

/-- What `Agent.run` hands back to its caller: the boolean result, and
whether `sandbox.cleanup()` ran on the way out. -/
structure RunResult where
  result : Bool
  cleanup_called : Bool
deriving DecidableEq

/-- `Agent.run`: the `try`/`except`/`finally` wrapper around `runBody` — a
raised exception is caught and becomes `False`, and the `finally` clause
calls `sandbox.cleanup()` on both the normal and the exceptional path. -/
def Agent.run (env : RunEnv) : RunResult :=
  match runBody env with
  | .ok b => { result := b, cleanup_called := true }
  | .error _ => { result := false, cleanup_called := true }

/-- `Agent._reproduce_bug`, from the point where the generated script's
syntax has been checked: `valid` is `validate_python_code(code)[0]`,
`(exit_code, output)` comes from running the script in the sandbox, and
`extract_error_messages` is the `tools.py` scanner the method calls on a
zero exit. -/
def reproduce_bug (valid : Bool) (exit_code : Int) (output : String)
    (extract_error_messages : String → List String) : Bool :=
  if !valid then false
  else if exit_code != 0 then true
  else if !(extract_error_messages output).isEmpty then true
  else false

/-- `Agent._verify_fix`: re-runs the reproduction script; on a zero exit it
still scans the output with `extract_error_messages` and fails if any
marker is found. -/
def verify_fix (exit_code : Int) (output : String)
    (extract_error_messages : String → List String) : Bool :=
  if exit_code == 0 then
    if (extract_error_messages output).isEmpty then true else false
  else false

/-- Accumulator pass for whitespace tokenisation. -/
def splitWsGo : List Char → List Char → List (List Char)
  | [], acc => if acc.isEmpty then [] else [acc.reverse]
  | c :: cs, acc =>
    if isPySpace c then
      if acc.isEmpty then splitWsGo cs [] else acc.reverse :: splitWsGo cs []
    else splitWsGo cs (c :: acc)

/-- Split on Python whitespace, dropping empty tokens. -/
def splitWs (cs : List Char) : List (List Char) :=
  splitWsGo cs []

/-- Keep the first occurrence of each element, in order. -/
def dedupFirstGo : List String → List String → List String
  | _, [] => []
  | seen, x :: xs =>
    if x ∈ seen then dedupFirstGo seen xs
    else x :: dedupFirstGo (x :: seen) xs

/-- Ordered de-duplication keeping first occurrences. -/
def dedupFirst (l : List String) : List String :=
  dedupFirstGo [] l

/-- Modelled from the spec: `extractFilePaths(text) -> orderedUniqueList`
from `tools.py`, which is not among the analysed sources — "regex-based
heuristic over path-like tokens; order reflects first occurrence,
duplicates removed".  Tokens are whitespace-separated words ending in
`.py`; the spec's own scenario (issue text containing the literal path
`app/models.py` yields `["app/models.py"]`) holds of this model. -/
def extract_file_paths (text : String) : List String :=
  let tokens := splitWs text.data
  dedupFirst ((tokens.filter (fun t => isSuffixL ".py".data t)).map (⟨·⟩))

/-- `Agent._locate_files`: first the issue-text heuristic
(`extract_file_paths(issue_text)`, stored as-is when non-empty), otherwise
the LLM fallback whose extracted paths are truncated to `files[:3]`.
Returns the stored `target_files` on success, `none` on failure. -/
def locate_files (issue_text llm_response : String)
    (extract_paths : String → List String) : Option (List String) :=
  let potential_files := extract_paths issue_text
  if !potential_files.isEmpty then
    some potential_files
  else
    let files := extract_paths llm_response
    if !files.isEmpty then some (files.take 3)
    else none

/-- The values the per-file body of `Agent._generate_fix` inspects for one
target file: the sandbox read (`none` when unreadable), the code extracted
from the LLM response (`""` when no fenced block was found), and the
verdict of `validate_python_code` on it. -/
structure FixFileEnv where
  read_result : Option String
  extracted_code : String
  code_valid : Bool

/-- Outcome of one iteration of the fix loop. -/
inductive FixOutcome where
  | skipped : FixOutcome
  | written : String → FixOutcome
deriving DecidableEq

/-- Whether an outcome wrote to the sandbox. -/
def FixOutcome.isWritten : FixOutcome → Bool
  | .skipped => false
  | .written _ => true

/-- The `MAX_FILE_CHARS` bound of `Agent._generate_fix`. -/
def MAX_FILE_CHARS : Nat := 32000

/-- The per-file body of `Agent._generate_fix`: `continue` (skip) when the
read is falsy (`None` or `""`), the file exceeds `MAX_FILE_CHARS`, no code
was extracted, the code fails validation, or the code equals the original
after `strip()`; otherwise `sandbox.write_file` runs with the extracted
code. -/
def process_fix_file (env : FixFileEnv) : FixOutcome :=
  let original_content := env.read_result.getD ""
  if original_content == "" then .skipped
  else if MAX_FILE_CHARS < original_content.length then .skipped
  else if env.extracted_code == "" then .skipped
  else if !env.code_valid then .skipped
  else if pyStrip env.extracted_code == pyStrip original_content then .skipped
  else .written env.extracted_code

/-- The `for filepath in self.target_files` loop of `Agent._generate_fix`,
threading the `fixed_any` flag and recording each file's outcome in
order. -/
def fix_loop : List FixFileEnv → Bool → Bool × List FixOutcome
  | [], fixed_any => (fixed_any, [])
  | env :: rest, fixed_any =>
    let oc := process_fix_file env
    let (r, ocs) := fix_loop rest (fixed_any || oc.isWritten)
    (r, oc :: ocs)

/-- `Agent._generate_fix`: runs the loop with `fixed_any = False` and
returns it. -/
def generate_fix (envs : List FixFileEnv) : Bool × List FixOutcome :=
  fix_loop envs false

/-! ## Claim theorems -/

/-- C1: every run of `Agent.run` returns a boolean (the embedding's total
`RunResult`), converts any exception raised inside the `try` body into a
`False` result instead of propagating it, and calls `Sandbox.cleanup()` on
every exit path — true return, false return, or exception. -/
theorem run_boolean_total_and_cleanup (env : RunEnv) :
    (Agent.run env).cleanup_called = true ∧
    (runBody env = .error () → (Agent.run env).result = false) := by
  unfold Agent.run
  cases h : runBody env <;> simp

/-- Witness for C1 at a run whose `sandbox.start()` raises. -/
theorem run_boolean_total_and_cleanup_witness :
    (Agent.run { start := .error (), reproduce_bug := .ok true,
                 locate_files := .ok true, generate_fix := .ok true,
                 verify_fix := .ok true }).cleanup_called = true ∧
    (Agent.run { start := .error (), reproduce_bug := .ok true,
                 locate_files := .ok true, generate_fix := .ok true,
                 verify_fix := .ok true }).result = false := by
  have h := run_boolean_total_and_cleanup
    { start := .error (), reproduce_bug := .ok true, locate_files := .ok true,
      generate_fix := .ok true, verify_fix := .ok true }
  exact ⟨h.1, h.2 rfl⟩

/-- C2: when the generated reproduction script passed syntax validation and
was executed, `_reproduce_bug` returns `True` iff the exit code is non-zero
or `extract_error_messages` finds a marker in the output; otherwise
`False`. -/
theorem reproduce_bug_iff_nonzero_or_marker (valid : Bool) (exit_code : Int)
    (output : String) (extract_error_messages : String → List String)
    (hvalid : valid = true) :
    reproduce_bug valid exit_code output extract_error_messages = true ↔
      (exit_code ≠ 0 ∨ extract_error_messages output ≠ []) := by
  subst hvalid
  unfold reproduce_bug
  by_cases hec : exit_code = 0 <;>
    by_cases herr : extract_error_messages output = [] <;>
      simp [hec, herr]

/-- Witness for C2 at a validated script exiting with code 1 and an empty
marker scan. -/
theorem reproduce_bug_iff_witness :
    reproduce_bug true 1 "" (fun _ => []) = true :=
  (reproduce_bug_iff_nonzero_or_marker true 1 "" (fun _ => []) rfl).mpr
    (Or.inl (by decide))

/-- C3: `_verify_fix` returns `True` iff the re-run exits zero and
`extract_error_messages` finds nothing; a zero exit with residual error
text is a failure. -/
theorem verify_fix_iff_clean_zero_exit (exit_code : Int) (output : String)
    (extract_error_messages : String → List String) :
    verify_fix exit_code output extract_error_messages = true ↔
      (exit_code = 0 ∧ extract_error_messages output = []) := by
  unfold verify_fix
  by_cases hec : exit_code = 0 <;>
    by_cases herr : extract_error_messages output = [] <;>
      simp [hec, herr]

/-- C9: `analyze_errors` is pure and idempotent — as a state transformer it
leaves the attempt history untouched, and analyzing the same transcript
twice in succession yields identical analyses, field by field. -/
theorem analyze_errors_pure_idempotent (fl : FeedbackLoop) (t : String) :
    (fl.analyzeOp t).1 = fl ∧
    (fl.analyzeOp t).1.attempts_history = fl.attempts_history ∧
    ((fl.analyzeOp t).1.analyzeOp t).2 = (fl.analyzeOp t).2 ∧
    ((fl.analyzeOp t).1.analyzeOp t).2.error_type = (fl.analyzeOp t).2.error_type ∧
    ((fl.analyzeOp t).1.analyzeOp t).2.error_message = (fl.analyzeOp t).2.error_message ∧
    ((fl.analyzeOp t).1.analyzeOp t).2.failed_line = (fl.analyzeOp t).2.failed_line ∧
    ((fl.analyzeOp t).1.analyzeOp t).2.suggestions = (fl.analyzeOp t).2.suggestions :=
  ⟨rfl, rfl, rfl, rfl, rfl, rfl, rfl⟩

/-- C5: content is written back for a target file only when the extracted
code is non-empty, passed validation, and differs from the original after
`strip()`; extracted code equal to the original after `strip()` is always
skipped. -/
theorem fix_write_requires_valid_changed_nonempty (env : FixFileEnv) :
    (∀ c, process_fix_file env = .written c →
        c = env.extracted_code ∧ c ≠ "" ∧ env.code_valid = true ∧
        pyStrip c ≠ pyStrip (env.read_result.getD "")) ∧
    (pyStrip env.extracted_code = pyStrip (env.read_result.getD "") →
        process_fix_file env = .skipped) := by
  constructor
  · intro c hc
    by_cases h1 : env.read_result.getD "" = ""
    · simp [process_fix_file, h1] at hc
    · by_cases h2 : MAX_FILE_CHARS < (env.read_result.getD "").length
      · simp [process_fix_file, h1, h2] at hc
      · by_cases h3 : env.extracted_code = ""
        · simp [process_fix_file, h1, h2, h3] at hc
        · by_cases h4 : env.code_valid
          · by_cases h5 : pyStrip env.extracted_code = pyStrip (env.read_result.getD "")
            · simp [process_fix_file, h1, h2, h3, h4, h5] at hc
            · simp [process_fix_file, h1, h2, h3, h4, h5] at hc
              refine ⟨hc.symm, ?_, h4, ?_⟩
              · rw [← hc]; exact h3
              · rw [← hc]; exact h5
          · simp [process_fix_file, h1, h2, h3, h4] at hc
  · intro hEq
    by_cases h1 : env.read_result.getD "" = ""
    · simp [process_fix_file, h1]
    · by_cases h2 : MAX_FILE_CHARS < (env.read_result.getD "").length
      · simp [process_fix_file, h1, h2]
      · by_cases h3 : env.extracted_code = ""
        · simp [process_fix_file, h1, h2, h3]
        · by_cases h4 : env.code_valid
          · simp [process_fix_file, h1, h2, h3, h4, hEq]
          · simp [process_fix_file, h1, h2, h3, h4]

/-- Witness for C5: extracted code differing from the original only by
surrounding whitespace is skipped. -/
theorem fix_write_requires_valid_changed_nonempty_witness :
    pyStrip " x " = pyStrip ((some "x" : Option String).getD "") ∧
    process_fix_file
      { read_result := some "x", extracted_code := " x ", code_valid := true } =
      .skipped :=
  ⟨by decide,
   (fix_write_requires_valid_changed_nonempty
      { read_result := some "x", extracted_code := " x ", code_valid := true }).2
     (by decide)⟩

/-- Unfolding lemma for the fix loop: the flag is the disjunction of the
incoming flag with "some processed file was written", and the outcome list
is the in-order map of the per-file body. -/
theorem fix_loop_spec (envs : List FixFileEnv) (b : Bool) :
    (fix_loop envs b).1 = (b || envs.any fun e => (process_fix_file e).isWritten) ∧
    (fix_loop envs b).2 = envs.map process_fix_file := by
  induction envs generalizing b with
  | nil => simp [fix_loop]
  | cons e rest ih =>
    have h1 := (ih (b || (process_fix_file e).isWritten)).1
    have h2 := (ih (b || (process_fix_file e).isWritten)).2
    constructor
    · simp [fix_loop, h1, Bool.or_assoc]
    · simp [fix_loop, h2]

/-- C6: `_generate_fix` processes every target file in order and
independently — the outcome list is exactly the per-file body mapped over
the whole target list, so a skip never aborts the remaining files — and it
returns `True` iff at least one file was written. -/
theorem generate_fix_processes_all_and_any_written (envs : List FixFileEnv) :
    (generate_fix envs).2 = envs.map process_fix_file ∧
    ((generate_fix envs).1 = true ↔
      ∃ e ∈ envs, (process_fix_file e).isWritten = true) := by
  have h := fix_loop_spec envs false
  refine ⟨h.2, ?_⟩
  rw [generate_fix, h.1]
  simp [List.any_eq_true]

/-- C10: a target file whose sandbox read came back as the empty string is
treated exactly like an unreadable file — skipped, with nothing written,
whatever the LLM-side inputs are. -/
theorem empty_read_skipped_like_unreadable (env : FixFileEnv)
    (h : env.read_result = none ∨ env.read_result = some "") :
    process_fix_file env = .skipped ∧
    process_fix_file env =
      process_fix_file { read_result := none,
                         extracted_code := env.extracted_code,
                         code_valid := env.code_valid } ∧
    (∀ code valid,
      process_fix_file { read_result := env.read_result,
                         extracted_code := code, code_valid := valid } =
        .skipped) := by
  have hg : env.read_result.getD "" = "" := by
    rcases h with h | h <;> simp [h]
  refine ⟨?_, ?_, ?_⟩
  · unfold process_fix_file
    simp [hg]
  · unfold process_fix_file
    simp [hg]
  · intro code valid
    unfold process_fix_file
    simp [hg]

/-- Witness for C10 at a file read back as `""`. -/
theorem empty_read_skipped_like_unreadable_witness :
    process_fix_file
      { read_result := some "", extracted_code := "y", code_valid := true } =
      .skipped :=
  (empty_read_skipped_like_unreadable
    { read_result := some "", extracted_code := "y", code_valid := true }
    (Or.inr rfl)).1

/-- C4 counterexample: an issue text carrying four distinct `.py` paths makes
the Locate heuristic succeed with a four-element target file set — the
heuristic branch of `_locate_files` stores `extract_file_paths(issue_text)`
without any truncation, so the claimed cap of 3 fails. -/
theorem locate_files_heuristic_uncapped_cex :
    locate_files "edit a/b.py then c/d.py then e/f.py then g/h.py" ""
        extract_file_paths =
      some ["a/b.py", "c/d.py", "e/f.py", "g/h.py"] ∧
    ¬ ((["a/b.py", "c/d.py", "e/f.py", "g/h.py"] : List String).length ≤ 3) := by
  decide

/-- C4 amended: the cap of 3 holds for the LLM fallback — whenever the
issue-text heuristic found no paths and Locate nevertheless succeeds, the
stored target file set has at most 3 entries (the heuristic branch stores
all extracted paths uncapped). -/
theorem locate_files_fallback_capped (issue llm : String)
    (f : String → List String) (files : List String)
    (hheur : f issue = [])
    (hsucc : locate_files issue llm f = some files) :
    files.length ≤ 3 := by
  unfold locate_files at hsucc
  simp only [hheur, List.isEmpty_nil, Bool.not_true, Bool.false_eq_true,
    if_false] at hsucc
  by_cases hfb : (f llm).isEmpty
  · simp [hfb] at hsucc
  · simp only [hfb, Bool.not_false, if_true, Option.some.injEq] at hsucc
    rw [← hsucc, List.length_take]
    exact min_le_left _ _

/-- Extractor used by the C4 witness: nothing path-like in the issue text,
four candidate paths in the fallback response. -/
def fallbackExtractor (s : String) : List String :=
  if s == "llm-response" then ["a.py", "b.py", "c.py", "d.py"] else []

/-- Witness for the amended C4: the fallback's four candidates are stored
truncated to three. -/
theorem locate_files_fallback_capped_witness :
    locate_files "issue" "llm-response" fallbackExtractor =
      some ["a.py", "b.py", "c.py"] ∧
    (["a.py", "b.py", "c.py"] : List String).length ≤ 3 :=
  ⟨by decide,
   locate_files_fallback_capped "issue" "llm-response" fallbackExtractor
     ["a.py", "b.py", "c.py"] (by decide) (by decide)⟩

/-- C7 counterexample: with exactly one recorded prior attempt whose
transcript contains `TypeError`, analyzing a new `TypeError` transcript
does not produce the repeat suggestion — the guard
`len(self.attempts_history) > 1` rules the single-prior-attempt case out,
although the kind occurs in the immediately preceding recorded attempt's
transcript. -/
theorem repeat_suggestion_single_history_cex :
    ((FeedbackLoop.init 3).add_attempt 1 "f.py" "code" "TypeError: boom"
        false 0).analyze_errors "TypeError: bad" =
      { error_type := some "TypeError", error_message := some "bad",
        failed_line := none,
        suggestions := ["Check function arguments and type compatibility"] } ∧
    strContains
      ((FeedbackLoop.init 3).add_attempt 1 "f.py" "code" "TypeError: boom"
          false 0).lastErrorOutput "TypeError" = true ∧
    repeatSuggestion ∉
      (((FeedbackLoop.init 3).add_attempt 1 "f.py" "code" "TypeError: boom"
          false 0).analyze_errors "TypeError: bad").suggestions := by
  decide

/-- C7 amended: the repeat suggestion is produced exactly under the code's
guard — when more than one attempt has been recorded and the analyzed
error kind occurs as a substring of the most recently recorded attempt's
transcript, the analysis includes the "same error repeating" suggestion. -/
theorem repeat_suggestion_when_history_gt_one (fl : FeedbackLoop)
    (transcript t : String)
    (hlen : 1 < fl.attempts_history.length)
    (htype : (fl.analyze_errors transcript).error_type = some t)
    (hrep : strContains fl.lastErrorOutput t = true) :
    repeatSuggestion ∈ (fl.analyze_errors transcript).suggestions := by
  have hpre : (preAnalysis transcript).error_type = some t := by
    unfold FeedbackLoop.analyze_errors at htype
    by_cases hs : (preAnalysis transcript).error_type.isSome
    · simpa [hs] using htype
    · rw [Option.not_isSome_iff_eq_none] at hs
      simp [hs] at htype
  have hs : (preAnalysis transcript).error_type.isSome = true := by
    rw [hpre]; rfl
  unfold FeedbackLoop.analyze_errors
  simp only [hs, if_true]
  unfold FeedbackLoop.generate_suggestions
  simp only [hpre, Option.getD_some, hlen, if_true, hrep]
  exact List.mem_append_right _ (List.mem_singleton.mpr rfl)

/-- Witness for the amended C7: two recorded `TypeError` attempts, then a
`TypeError` analysis carrying the repeat suggestion. -/
theorem repeat_suggestion_when_history_gt_one_witness :
    repeatSuggestion ∈
      ((((FeedbackLoop.init 3).add_attempt 1 "f.py" "c1" "TypeError: boom"
            false 0).add_attempt 2 "f.py" "c2" "TypeError: worse"
            false 1).analyze_errors "TypeError: bad").suggestions :=
  repeat_suggestion_when_history_gt_one
    (((FeedbackLoop.init 3).add_attempt 1 "f.py" "c1" "TypeError: boom"
        false 0).add_attempt 2 "f.py" "c2" "TypeError: worse" false 1)
    "TypeError: bad" "TypeError" (by decide) (by decide) (by decide)

/-- Number of attempt records stored for a given file path. -/
def countFor (fl : FeedbackLoop) (path : String) : Nat :=
  (fl.attempts_history.filter fun r => r.file_path == path).length

/-- C8 counterexample: `add_attempt` appends unconditionally, so four calls
for the same file leave four records — above the default ceiling of 3. -/
theorem add_attempt_unbounded_cex :
    countFor (((((FeedbackLoop.init 3).add_attempt 1 "f.py" "c" "e" false
          0).add_attempt 2 "f.py" "c" "e" false 1).add_attempt 3 "f.py" "c"
          "e" false 2).add_attempt 4 "f.py" "c" "e" false 3) "f.py" = 4 ∧
    ¬ (countFor (((((FeedbackLoop.init 3).add_attempt 1 "f.py" "c" "e" false
          0).add_attempt 2 "f.py" "c" "e" false 1).add_attempt 3 "f.py" "c"
          "e" false 2).add_attempt 4 "f.py" "c" "e" false 3) "f.py" ≤
        (FeedbackLoop.init 3).max_attempts) := by
  decide

/-- The `FeedbackLoop` method calls, as operations on its state. -/
inductive FLOp where
  | addAttempt : Nat → String → String → String → Bool → Nat → FLOp
  | analyzeErrors : String → FLOp
  | shouldRetryQuery : Nat → FLOp

/-- One method call under the intended retry protocol: an attempt is only
recorded when `should_retry` sanctions it against that file's current
record count; `analyze_errors` and `should_retry` read but never write. -/
def applyGuarded (fl : FeedbackLoop) : FLOp → FeedbackLoop
  | .addAttempt n p c e s now =>
    if fl.should_retry (countFor fl p) then fl.add_attempt n p c e s now
    else fl
  | .analyzeErrors e => (fl.analyzeOp e).1
  | .shouldRetryQuery _ => fl

/-- `add_attempt` bumps the record count of its own file by one and leaves
every other file's count unchanged. -/
theorem countFor_add_attempt (fl : FeedbackLoop) (n : Nat) (p c e : String)
    (s : Bool) (now : Nat) (q : String) :
    countFor (fl.add_attempt n p c e s now) q =
      countFor fl q + (if p = q then 1 else 0) := by
  unfold countFor FeedbackLoop.add_attempt
  by_cases h : p = q <;> simp [List.filter_append, h]

/-- No operation changes the configured ceiling. -/
theorem applyGuarded_max (fl : FeedbackLoop) (op : FLOp) :
    (applyGuarded fl op).max_attempts = fl.max_attempts := by
  cases op with
  | addAttempt n p c e s now =>
    unfold applyGuarded
    by_cases h : fl.should_retry (countFor fl p) <;>
      simp [h, FeedbackLoop.add_attempt]
  | analyzeErrors e => rfl
  | shouldRetryQuery n => rfl

/-- A guarded step preserves the per-file bound. -/
theorem countFor_applyGuarded_le (fl : FeedbackLoop) (op : FLOp) (q : String)
    (h : countFor fl q ≤ fl.max_attempts) :
    countFor (applyGuarded fl op) q ≤ fl.max_attempts := by
  cases op with
  | addAttempt n p c e s now =>
    simp only [applyGuarded]
    by_cases hr : fl.should_retry (countFor fl p)
    · rw [if_pos hr, countFor_add_attempt]
      unfold FeedbackLoop.should_retry at hr
      simp only [decide_eq_true_eq] at hr
      by_cases hpq : p = q
      · subst hpq
        rw [if_pos rfl]
        omega
      · simp [hpq, h]
    · rw [if_neg hr]
      exact h
  | analyzeErrors e => exact h
  | shouldRetryQuery n => exact h

/-- The per-file bound is invariant under any guarded operation sequence. -/
theorem countFor_foldl_le (ops : List FLOp) (fl : FeedbackLoop) (q : String)
    (h : countFor fl q ≤ fl.max_attempts) :
    countFor (ops.foldl applyGuarded fl) q ≤ fl.max_attempts := by
  induction ops generalizing fl with
  | nil => simpa using h
  | cons op rest ih =>
    rw [List.foldl_cons]
    have h1 : countFor (applyGuarded fl op) q ≤
        (applyGuarded fl op).max_attempts := by
      rw [applyGuarded_max]
      exact countFor_applyGuarded_le fl op q h
    have h2 := ih (applyGuarded fl op) h1
    rwa [applyGuarded_max] at h2

/-- C8 amended: `should_retry n` is true exactly when `n < max_attempts`,
unconditionally; the per-file record bound is not enforced by
`add_attempt` itself (it appends unconditionally) but holds for every
sequence of operations in which each recording is guarded by a
`should_retry` check on that file's current record count. -/
theorem guarded_attempts_bounded_and_should_retry (fl : FeedbackLoop)
    (ops : List FLOp) (p : String)
    (hinit : ∀ q, countFor fl q ≤ fl.max_attempts) :
    countFor (ops.foldl applyGuarded fl) p ≤ fl.max_attempts ∧
    (∀ n, fl.should_retry n = true ↔ n < fl.max_attempts) := by
  refine ⟨countFor_foldl_le ops fl p (hinit p), ?_⟩
  intro n
  unfold FeedbackLoop.should_retry
  simp

/-- Witness for the amended C8: four guarded recording requests against the
default ceiling leave at most three records, and `should_retry 2` holds. -/
theorem guarded_attempts_bounded_witness :
    countFor
      ([FLOp.addAttempt 1 "f.py" "c" "e" false 0,
        FLOp.addAttempt 2 "f.py" "c" "e" false 1,
        FLOp.addAttempt 3 "f.py" "c" "e" false 2,
        FLOp.addAttempt 4 "f.py" "c" "e" false 3].foldl applyGuarded
        (FeedbackLoop.init 3)) "f.py" ≤ (FeedbackLoop.init 3).max_attempts ∧
    (FeedbackLoop.init 3).should_retry 2 = true := by
  have h := guarded_attempts_bounded_and_should_retry (FeedbackLoop.init 3)
    [FLOp.addAttempt 1 "f.py" "c" "e" false 0,
     FLOp.addAttempt 2 "f.py" "c" "e" false 1,
     FLOp.addAttempt 3 "f.py" "c" "e" false 2,
     FLOp.addAttempt 4 "f.py" "c" "e" false 3] "f.py"
    (fun q => by simp [countFor, FeedbackLoop.init])
  exact ⟨h.1, (h.2 2).mpr (by decide)⟩

end SudoDev
